import Mathlib

/-!
Verification of the resource-governed signal pipeline
(backend/api/rate_limiter.py, backend/data/cache_manager.py,
backend/indicators/technical.py, backend/ai_agent/signal_generator.py).

Machine floats of the source are embedded as exact rationals (ℚ); Python
ints as ℤ.  Wall-clock instants are rationals passed explicitly: an
`acquire` call receives its start instant `t0` and the instant `t1` at
which a sleep, when one happens, wakes up.
-/

/-! ## Token bucket (rate_limiter.py, class TokenBucket) -/

/-- State of `TokenBucket`: `capacity`, `refill_rate` (tokens/second),
current `tokens` and the `last_refill` timestamp. -/
structure TokenBucket where
  capacity : ℚ
  refill_rate : ℚ
  tokens : ℚ
  last_refill : ℚ
deriving DecidableEq, Repr

/-- `TokenBucket._refill` evaluated at wall-clock instant `now`:
adds `elapsed * refill_rate` tokens, capped at `capacity`. -/
def TokenBucket.refill (b : TokenBucket) (now : ℚ) : TokenBucket :=
  { b with
    tokens := min b.capacity (b.tokens + (now - b.last_refill) * b.refill_rate)
    last_refill := now }

/-- The sleep duration computed in the waiting branch of `acquire`:
`(tokens - self.tokens) / self.refill_rate` after the initial refill. -/
def TokenBucket.waitTime (b : TokenBucket) (tokens t0 : ℚ) : ℚ :=
  (tokens - (b.refill t0).tokens) / b.refill_rate

/-- `TokenBucket.acquire tokens` started at instant `t0`; if the fast path
fails the coroutine sleeps and resumes at instant `t1`, refills again and
debits.  Returns the boolean result and the final bucket state. -/
def TokenBucket.acquire (b : TokenBucket) (tokens t0 t1 : ℚ) : Bool × TokenBucket :=
  let b1 := b.refill t0
  if tokens ≤ b1.tokens then
    (true, { b1 with tokens := b1.tokens - tokens })
  else
    let b2 := b1.refill t1
    (true, { b2 with tokens := b2.tokens - tokens })

/-- A fresh bucket as built by `TokenBucket.__init__` at instant `t`:
tokens start at capacity. -/
def initBucket (cap rate t : ℚ) : TokenBucket :=
  ⟨cap, rate, cap, t⟩

/-- Timing validity of a sequence of 1-unit acquire events `(t0, t1)`:
each call starts no earlier than the bucket's bookkeeping instant, and
when the waiting branch is taken the wake-up instant honours
`asyncio.sleep(wait_time)` (it is at least `t0 + wait_time`). -/
def validEvents (b : TokenBucket) : List (ℚ × ℚ) → Bool
  | [] => true
  | (t0, t1) :: rest =>
    decide (b.last_refill ≤ t0) &&
    decide (t0 + (if (b.refill t0).tokens < 1 then b.waitTime 1 t0 else 0) ≤ t1) &&
    validEvents (b.acquire 1 t0 t1).2 rest

/-- The bucket state after a sequence of sequential 1-unit acquires. -/
def runAcquires (b : TokenBucket) : List (ℚ × ℚ) → TokenBucket
  | [] => b
  | (t0, t1) :: rest => runAcquires (b.acquire 1 t0 t1).2 rest

/-- The `(capacity, refill_rate)` pairs configured in
`RateLimiter._init_limiters`. -/
def sourceBucketParams : List (ℚ × ℚ) :=
  [(45, 0.75), (1100, 18.33), (100, 0.00115), (300, 0.00347)]

/-! ## Multi-source rate limiter (rate_limiter.py, class RateLimiter) -/

/-- The configured source names of `RateLimiter._init_limiters`. -/
def sourceNames : List String :=
  ["coingecko", "binance", "glassnode", "cryptoquant"]

/-- The `self.limiters` mapping right after `RateLimiter.__init__` run at
instant `tinit`. -/
def initLimiters (tinit : ℚ) : List (String × TokenBucket) :=
  [("coingecko", initBucket 45 0.75 tinit),
   ("binance", initBucket 1100 18.33 tinit),
   ("glassnode", initBucket 100 0.00115 tinit),
   ("cryptoquant", initBucket 300 0.00347 tinit)]

/-- Dictionary lookup in the `limiters` mapping. -/
def lookupBucket (l : List (String × TokenBucket)) (s : String) : Option TokenBucket :=
  (l.find? (fun p => p.1 == s)).map Prod.snd

/-- Dictionary update in the `limiters` mapping. -/
def updateBucket (l : List (String × TokenBucket)) (s : String) (b : TokenBucket) :
    List (String × TokenBucket) :=
  l.map (fun p => if p.1 == s then (s, b) else p)

/-- Wall-clock time `RateLimiter.acquire` spends inside the bucket:
zero on the fast path, `t1 - t0` when the call sleeps. -/
def acquireElapsed (b : TokenBucket) (tokens t0 t1 : ℚ) : ℚ :=
  if tokens ≤ (b.refill t0).tokens then 0 else t1 - t0

/-- `RateLimiter.acquire(source, priority, tokens)`: an unknown source
returns `True` immediately (no bucket touched, no wait); a known source
delegates to its bucket.  Result: success flag, new limiters mapping,
elapsed wait time. -/
def rateLimiterAcquire (limiters : List (String × TokenBucket)) (source : String)
    (t0 t1 tokens : ℚ) : Bool × List (String × TokenBucket) × ℚ :=
  match lookupBucket limiters source with
  | none => (true, limiters, 0)
  | some b =>
    let r := b.acquire tokens t0 t1
    (r.1, updateBucket limiters source r.2, acquireElapsed b tokens t0 t1)

/-! ## Tiered cache (cache_manager.py, class CacheManager)

Cached values are drawn from an abstract type `α`; JSON serialization is
treated as the identity round-trip on `α`.  Both stores are embedded as
association lists from key to `(value, expiry instant)`. -/

/-- A keyed store: one entry per key, each with its expiry instant. -/
def Store (α : Type) : Type := List (String × α × ℚ)

/-- Lookup in a store. -/
def storeFind {α : Type} (s : Store α) (k : String) : Option (α × ℚ) :=
  (List.find? (fun e => e.1 == k) s).map Prod.snd

/-- Overwrite/insert one key of a store. -/
def storeInsert {α : Type} (s : Store α) (k : String) (v : α) (exp : ℚ) : Store α :=
  (k, v, exp) :: List.filter (fun e => e.1 != k) s

/-- Remove one key of a store (`del` / `pop`). -/
def storeErase {α : Type} (s : Store α) (k : String) : Store α :=
  List.filter (fun e => e.1 != k) s

/-- State of `CacheManager`: the `use_redis` flag, whether `redis_client`
is a live connection, the primary (Redis) store and the in-process
`fallback_cache`. -/
structure CacheState (α : Type) where
  use_redis : Bool
  redis_conn : Bool
  redis_store : Store α
  fallback_cache : Store α

/-- Modelled from the spec: the primary tier is an external Redis store
(not part of src/).  `SETEX key ttl v` stores `v` with expiry `now + ttl`;
`GET` returns a value only strictly before its expiry instant and behaves
as a miss from the expiry instant on. -/
def redisGet {α : Type} (s : Store α) (k : String) (now : ℚ) : Option α :=
  match storeFind s k with
  | some (v, exp) => if now < exp then some v else none
  | none => none

/-- Modelled from the spec: Redis `SETEX` (see `redisGet`). -/
def redisSetex {α : Type} (s : Store α) (k : String) (ttl : ℚ) (v : α) (now : ℚ) : Store α :=
  storeInsert s k v (now + ttl)

/-- `CacheManager.connect`: on ping failure (`ok = false`) the manager
sets `use_redis = False` and drops the client; on success the client is
kept. -/
def CacheState.connect {α : Type} (st : CacheState α) (ok : Bool) : CacheState α :=
  if ok then { st with redis_conn := true }
  else { st with use_redis := false, redis_conn := false }

/-- `CacheManager.get` at instant `now`.  `fault = true` means the
primary-tier operation raised at call time; the exception is caught and
`None` is returned, with no state change.  In fallback mode an entry past
its expiry instant is deleted at read time and treated as a miss. -/
def CacheState.get {α : Type} (st : CacheState α) (key : String) (now : ℚ) (fault : Bool) :
    Option α × CacheState α :=
  if st.use_redis && st.redis_conn then
    if fault then (none, st) else (redisGet st.redis_store key now, st)
  else
    match storeFind st.fallback_cache key with
    | some (v, exp) =>
      if now < exp then (some v, st)
      else (none, { st with fallback_cache := storeErase st.fallback_cache key })
    | none => (none, st)

/-- `CacheManager.set` at instant `now` with time-to-live `ttl`.  A
call-time primary fault is caught and the call becomes a no-op. -/
def CacheState.set {α : Type} (st : CacheState α) (key : String) (v : α) (ttl : ℚ)
    (now : ℚ) (fault : Bool) : CacheState α :=
  if st.use_redis && st.redis_conn then
    if fault then st
    else { st with redis_store := redisSetex st.redis_store key ttl v now }
  else
    { st with fallback_cache := storeInsert st.fallback_cache key v (now + ttl) }

/-- One cache call, for reasoning about call sequences. -/
inductive CacheOp (α : Type) where
  | get (k : String) (now : ℚ) (fault : Bool)
  | set (k : String) (v : α) (ttl : ℚ) (now : ℚ) (fault : Bool)

/-- Apply a sequence of cache calls. -/
def applyOps {α : Type} (st : CacheState α) : List (CacheOp α) → CacheState α
  | [] => st
  | CacheOp.get k now fault :: rest => applyOps (st.get k now fault).2 rest
  | CacheOp.set k v ttl now fault :: rest => applyOps (st.set k v ttl now fault) rest

/-! ## Indicator engine (technical.py, class TechnicalIndicators)

The scoring and classification logic of `analyze_candles` and
`calculate_technical_score`.  Python truthiness of `if x:` on an optional
number is embedded explicitly: `None` and `0` are falsy. -/

/-- The indicator dictionary consumed by `calculate_technical_score`;
a missing dictionary key is `none`. -/
structure IndicatorsDict where
  rsi : Option ℚ := none
  macd_signal : Option String := none
  trend : Option String := none
  bb_signal : Option String := none
  volume_ratio : Option ℚ := none
deriving DecidableEq, Repr

/-- RSI contribution of `calculate_technical_score` (guarded by the
truthiness of `indicators.get("rsi")`). -/
def rsiDelta : Option ℚ → ℤ
  | none => 0
  | some r =>
    if r = 0 then 0
    else if r < 30 then 20
    else if r < 40 then 10
    else if 70 < r then -20
    else if 60 < r then -10
    else 0

/-- MACD contribution of `calculate_technical_score`
(`indicators.get("macd_signal", "NEUTRAL")`). -/
def macdDelta (o : Option String) : ℤ :=
  let ms := o.getD "NEUTRAL"
  if ms = "BULLISH" then 20 else if ms = "BEARISH" then -20 else 0

/-- Trend contribution of `calculate_technical_score`
(`indicators.get("trend", "UNKNOWN")`). -/
def trendDelta (o : Option String) : ℤ :=
  let tr := o.getD "UNKNOWN"
  if tr = "STRONG_UPTREND" then 30
  else if tr = "UPTREND" then 15
  else if tr = "STRONG_DOWNTREND" then -30
  else if tr = "DOWNTREND" then -15
  else 0

/-- Bollinger-band contribution of `calculate_technical_score`
(`indicators.get("bb_signal", "NEUTRAL")`). -/
def bbDelta (o : Option String) : ℤ :=
  let bb := o.getD "NEUTRAL"
  if bb = "OVERSOLD" then 15
  else if bb = "OVERBOUGHT" then -15
  else if bb = "SQUEEZE" then 5
  else 0

/-- Volume step of `calculate_technical_score`: the adjustment branches
on the running score's position relative to 50. -/
def volumeStep (score : ℤ) : Option ℚ → ℤ
  | none => score
  | some v =>
    if v = 0 then score
    else if (1.5 : ℚ) < v then (if 50 < score then score + 15 else score - 15)
    else if v < (0.5 : ℚ) then (if 50 < score then score - 5 else score + 5)
    else score

/-- Final clamp `max(0, min(100, score))`. -/
def clamp0100 (z : ℤ) : ℤ := max 0 (min 100 z)

/-- `TechnicalIndicators.calculate_technical_score`: start at 50, apply
the four additive contributions in source order, then the score-dependent
volume step, then clamp once. -/
def calculate_technical_score (ind : IndicatorsDict) : ℤ :=
  clamp0100 (volumeStep
    (50 + rsiDelta ind.rsi + macdDelta ind.macd_signal
        + trendDelta ind.trend + bbDelta ind.bb_signal)
    ind.volume_ratio)

/-- RSI classification of `analyze_candles` (lines 262-272): `rsi_signal`
starts `"NEUTRAL"` and is only reassigned when `if rsi:` is truthy. -/
def rsiSignalOf : Option ℚ → String
  | none => "NEUTRAL"
  | some r =>
    if r = 0 then "NEUTRAL"
    else if r < 30 then "OVERSOLD"
    else if 70 < r then "OVERBOUGHT"
    else if r < 40 then "BEARISH"
    else if 60 < r then "BULLISH"
    else "NEUTRAL"

/-- The claim's reading of the RSI thresholds, written from the spec's
words for comparison: `<30` oversold, `<40` bearish, `<60` neutral,
`<70` bullish, else overbought. -/
def rsiSignalClaim (r : ℚ) : String :=
  if r < 30 then "OVERSOLD"
  else if r < 40 then "BEARISH"
  else if r < 60 then "NEUTRAL"
  else if r < 70 then "BULLISH"
  else "OVERBOUGHT"

/-! ## Signal fusion engine (signal_generator.py, class SignalGenerator;
data shapes from data/models.py).  Fields a definition never reads
(timestamps, on-chain metrics, free-text reasoning) are omitted. -/

/-- `SignalType` (models.py). -/
inductive SignalType where
  | STRONG_BUY | BUY | WEAK_BUY | HOLD | WEAK_SELL | SELL | STRONG_SELL
deriving DecidableEq, Repr

/-- `Timeframe` (models.py). -/
inductive Timeframe where
  | SCALP | DAY | SWING | POSITION
deriving DecidableEq, Repr

/-- `Timeframe.value` of the enum member. -/
def timeframeValue : Timeframe → String
  | Timeframe.SCALP => "SCALP"
  | Timeframe.DAY => "DAY"
  | Timeframe.SWING => "SWING"
  | Timeframe.POSITION => "POSITION"

/-- `CoinPrice` (models.py), the fields the fusion engine reads. -/
structure CoinPrice where
  price : ℚ
  change_24h : ℚ
deriving DecidableEq, Repr

/-- `TechnicalIndicators` (models.py): required numeric fields plus
optional EMAs and volume ratio. -/
structure TechIndicators where
  rsi : ℚ
  macd : ℚ
  macd_signal : ℚ
  macd_histogram : ℚ
  bb_upper : ℚ
  bb_middle : ℚ
  bb_lower : ℚ
  ema_20 : Option ℚ := none
  ema_50 : Option ℚ := none
  ema_200 : Option ℚ := none
  volume_ratio : Option ℚ := none
deriving DecidableEq, Repr

/-- `MacroContext` (models.py), the fields `_calculate_macro_score`
reads. -/
structure MacroContext where
  dxy : Option ℚ := none
  vix : Option ℚ := none
  fear_greed_index : Option ℤ := none
deriving DecidableEq, Repr

/-- `AIAnalysis` (models.py), the fields the fusion engine reads. -/
structure AIAnalysis where
  rating : SignalType
  confidence : ℤ
  timeframe : Timeframe
  entry_zone_low : Option ℚ := none
  entry_zone_high : Option ℚ := none
  target_conservative : Option ℚ := none
  target_aggressive : Option ℚ := none
  stop_loss : Option ℚ := none
deriving DecidableEq, Repr

/-- `MultiLayerSignal` (models.py), the fields `generate_signal`
populates. -/
structure MultiLayerSignal where
  coin : String
  signal : SignalType
  overall_score : ℤ
  confidence : ℤ
  technical_score : ℤ
  macro_score : Option ℤ := none
  sentiment_score : Option ℤ := none
  action : String
  entry_zone : Option String := none
  targets : List ℚ := []
  stop_loss : Option ℚ := none
  position_size_pct : Option ℚ := none
  timeframe : String := "7-14 days"
deriving DecidableEq, Repr

/-- Python `int(...)` on a rational: truncation toward zero. -/
def pyInt (q : ℚ) : ℤ := q.num.tdiv q.den

/-- Python truthiness of an optional number: `None` and `0` are falsy. -/
def truthyQ : Option ℚ → Bool
  | none => false
  | some x => decide (x ≠ 0)

/-- Python `x or d` on an optional number: the default kicks in when `x`
is `None` or `0`. -/
def orDefault (o : Option ℚ) (d : ℚ) : ℚ :=
  match o with
  | some x => if x = 0 then d else x
  | none => d

/-- `SignalGenerator._determine_trend`: EMAs must all be truthy, the BB
middle band stands in for the current price. -/
def determineTrend (t : TechIndicators) : String :=
  if truthyQ t.ema_20 && truthyQ t.ema_50 && truthyQ t.ema_200 then
    let e20 := t.ema_20.getD 0
    let e50 := t.ema_50.getD 0
    let e200 := t.ema_200.getD 0
    let current := t.bb_middle
    if e200 < current then
      (if e50 < e20 ∧ e200 < e50 then "STRONG_UPTREND" else "UPTREND")
    else if current < e200 then
      (if e20 < e50 ∧ e50 < e200 then "STRONG_DOWNTREND" else "DOWNTREND")
    else "SIDEWAYS"
  else "UNKNOWN"

/-- `SignalGenerator._determine_bb_signal`: bands must all be truthy, the
middle band stands in for the current price. -/
def determineBBSignal (t : TechIndicators) : String :=
  if t.bb_upper ≠ 0 ∧ t.bb_middle ≠ 0 ∧ t.bb_lower ≠ 0 then
    if t.bb_middle < t.bb_lower then "OVERSOLD"
    else if t.bb_upper < t.bb_middle then "OVERBOUGHT"
    else "NEUTRAL"
  else "NEUTRAL"

/-- `SignalGenerator._calculate_technical_score`: builds the indicator
dictionary and delegates to `calculate_technical_score`. -/
def calcTechnicalScoreSG (t : TechIndicators) : ℤ :=
  calculate_technical_score
    { rsi := some t.rsi
      macd_signal := some (if 0 < t.macd_histogram then "BULLISH" else "BEARISH")
      trend := some (determineTrend t)
      bb_signal := some (determineBBSignal t)
      volume_ratio := t.volume_ratio }

/-- `SignalGenerator._calculate_macro_score` (the unused `price_data`
parameter is dropped). -/
def calcMacroScore (m : MacroContext) : ℤ :=
  let score : ℤ := 50
  let score := score + (match m.dxy with
    | some d =>
      if d = 0 then 0
      else if d < 95 then 20
      else if d < 100 then 10
      else if 110 < d then -20
      else if 105 < d then -10
      else 0
    | none => 0)
  let score := score + (match m.vix with
    | some v =>
      if v = 0 then 0
      else if v < 15 then 15
      else if v < 20 then 5
      else if 30 < v then -15
      else if 25 < v then -5
      else 0
    | none => 0)
  let score := score + (match m.fear_greed_index with
    | some f =>
      if f = 0 then 0
      else if f < 25 then 15
      else if f < 40 then 5
      else if 75 < f then -15
      else if 60 < f then -5
      else 0
    | none => 0)
  max 0 (min 100 score)

/-- The `signal_map` of `SignalGenerator._map_ai_to_score`. -/
def signalAnchor : SignalType → ℤ
  | SignalType.STRONG_BUY => 95
  | SignalType.BUY => 75
  | SignalType.WEAK_BUY => 60
  | SignalType.HOLD => 50
  | SignalType.WEAK_SELL => 40
  | SignalType.SELL => 25
  | SignalType.STRONG_SELL => 5

/-- `SignalGenerator._map_ai_to_score`: interpolate between 50 and the
anchor by the stated confidence fraction, then `int(...)`. -/
def mapAiToScore (a : AIAnalysis) : ℤ :=
  pyInt (50 + ((signalAnchor a.rating : ℚ) - 50) * ((a.confidence : ℚ) / 100))

/-- `SignalGenerator._calculate_overall_score`: availability-dependent
weights, then `int(...)`. -/
def overallScore (technical_score : ℤ) (macro_score sentiment_score : Option ℤ) : ℤ :=
  match macro_score, sentiment_score with
  | some m, some s =>
    pyInt ((technical_score : ℚ) * 0.4 + (m : ℚ) * 0.3 + (s : ℚ) * 0.3)
  | some m, none =>
    pyInt ((technical_score : ℚ) * 0.6 + (m : ℚ) * 0.4)
  | none, some s =>
    pyInt ((technical_score : ℚ) * 0.6 + (s : ℚ) * 0.4)
  | none, none =>
    pyInt (technical_score : ℚ)

/-- `SignalGenerator._score_to_signal_type`. -/
def scoreToSignalType (score : ℤ) : SignalType :=
  if 80 ≤ score then SignalType.STRONG_BUY
  else if 65 ≤ score then SignalType.BUY
  else if 55 ≤ score then SignalType.WEAK_BUY
  else if 45 ≤ score then SignalType.HOLD
  else if 35 ≤ score then SignalType.WEAK_SELL
  else if 20 ≤ score then SignalType.SELL
  else SignalType.STRONG_SELL

/-- `SignalGenerator._calculate_confidence`. -/
def calcConfidence (technical_score : ℤ) (macro_score sentiment_score : Option ℤ)
    (ai : Option AIAnalysis) : ℤ :=
  let confidence : ℤ := match ai with
    | some a => a.confidence
    | none => 50
  let scores := List.filterMap id [some technical_score, macro_score, sentiment_score]
  if 2 ≤ scores.length then
    let n : ℚ := scores.length
    let avg : ℚ := (List.map (fun x => (x : ℚ)) scores).sum / n
    let variance : ℚ := (List.map (fun x => ((x : ℚ) - avg) ^ 2) scores).sum / n
    if variance < 100 then min 100 (confidence + 10)
    else if 400 < variance then max 0 (confidence - 15)
    else confidence
  else confidence

/-- Dollar formatting of the source's f-strings, abstracted to a plain
rendering of the number (grouping and decimal truncation of the display
string carry no information the claims touch). -/
def fmtUSD (q : ℚ) : String := "$" ++ toString q

/-- The `action_map` of `_determine_trade_levels`. -/
def actionOf : SignalType → String
  | SignalType.STRONG_BUY => "Enter Long Position (High Conviction)"
  | SignalType.BUY => "Enter Long Position"
  | SignalType.WEAK_BUY => "Scale In (Small Position)"
  | SignalType.HOLD => "Wait / Hold Current Positions"
  | SignalType.WEAK_SELL => "Consider Taking Profits"
  | SignalType.SELL => "Exit Long Positions"
  | SignalType.STRONG_SELL => "Exit All Positions (Urgent)"

/-- The technical-levels branch of `_determine_trade_levels`:
entry zone, targets, stop loss from the current price and signal class. -/
def techLevels (st : SignalType) (cp : ℚ) (tech : TechIndicators) :
    String × List ℚ × Option ℚ :=
  match st with
  | SignalType.STRONG_BUY | SignalType.BUY =>
    (fmtUSD (cp * 0.98) ++ "-" ++ fmtUSD (cp * 1.02),
     [cp * 1.1, cp * 1.2, cp * 1.3],
     some (if tech.bb_lower = 0 then cp * 0.92 else tech.bb_lower))
  | SignalType.WEAK_SELL | SignalType.SELL | SignalType.STRONG_SELL =>
    ("Current price (" ++ fmtUSD cp ++ ")", [], none)
  | _ => ("Wait for better setup", [], none)

/-- `SignalGenerator._determine_trade_levels`.  When the AI analysis is
present with a truthy `entry_zone_low` but no `entry_zone_high`, the
f-string formats `None` and raises `TypeError`; that exception escapes to
`generate_signal`, so the result is an `Except`. -/
def determineTradeLevels (st : SignalType) (price : CoinPrice) (tech : TechIndicators)
    (ai : Option AIAnalysis) : Except String (String × String × List ℚ × Option ℚ) :=
  let cp := price.price
  let levels : Except String (String × List ℚ × Option ℚ) :=
    match ai with
    | some a =>
      if truthyQ a.entry_zone_low then
        match a.entry_zone_high with
        | some hi =>
          Except.ok (fmtUSD (a.entry_zone_low.getD 0) ++ "-" ++ fmtUSD hi,
            [orDefault a.target_conservative (cp * 1.1),
             orDefault a.target_aggressive (cp * 1.2)],
            some (orDefault a.stop_loss (cp * 0.9)))
        | none => Except.error "TypeError"
      else Except.ok (techLevels st cp tech)
    | none => Except.ok (techLevels st cp tech)
  match levels with
  | Except.ok (e, tg, sl) => Except.ok (actionOf st, e, tg, sl)
  | Except.error msg => Except.error msg

/-- Base position sizes of `_recommend_position_size`. -/
def baseSizeOf : SignalType → ℚ
  | SignalType.STRONG_BUY => 10
  | SignalType.BUY => 7
  | SignalType.WEAK_BUY => 3
  | _ => 0

/-- Python `round` to the nearest integer, ties to even. -/
def roundHalfEvenZ (q : ℚ) : ℤ :=
  if q - Int.floor q = 1 / 2 ∧ Int.floor q % 2 = 0 then Int.floor q else round q

/-- Python `round(x, 1)` on the embedded rationals. -/
def round1 (q : ℚ) : ℚ := (roundHalfEvenZ (q * 10) : ℚ) / 10

/-- `SignalGenerator._recommend_position_size`. -/
def recommendPositionSize (st : SignalType) (confidence : ℤ) (price : CoinPrice) : ℚ :=
  let base := baseSizeOf st
  let adjusted := base * ((confidence : ℚ) / 100)
  let vol := |price.change_24h|
  let adjusted :=
    if 10 < vol then adjusted * 0.7
    else if 5 < vol then adjusted * 0.85
    else adjusted
  round1 adjusted

/-- The body of `generate_signal`'s `try` block: every step that can
raise surfaces as `Except.error`. -/
def generateSignalAttempt (coin : String) (price : CoinPrice) (tech : TechIndicators)
    (ai : Option AIAnalysis) (macroCtx : Option MacroContext) :
    Except String MultiLayerSignal :=
  let technical_score := calcTechnicalScoreSG tech
  let macro_score := macroCtx.map calcMacroScore
  let sentiment_score := ai.map mapAiToScore
  let overall_score := overallScore technical_score macro_score sentiment_score
  let signal_type := scoreToSignalType overall_score
  let confidence := calcConfidence technical_score macro_score sentiment_score ai
  match determineTradeLevels signal_type price tech ai with
  | Except.error e => Except.error e
  | Except.ok (action, entry_zone, targets, sl) =>
    let position_size := recommendPositionSize signal_type confidence price
    let timeframe := match ai with
      | some a => timeframeValue a.timeframe
      | none => "7-14 days"
    Except.ok
      { coin := coin
        signal := signal_type
        overall_score := overall_score
        confidence := confidence
        technical_score := technical_score
        macro_score := macro_score
        sentiment_score := sentiment_score
        action := action
        entry_zone := some entry_zone
        targets := targets
        stop_loss := sl
        position_size_pct := some position_size
        timeframe := timeframe }

/-- The default HOLD signal built in `generate_signal`'s `except`
branch; unfilled fields keep their model defaults. -/
def defaultHoldSignal (coin : String) : MultiLayerSignal :=
  { coin := coin
    signal := SignalType.HOLD
    overall_score := 50
    confidence := 0
    technical_score := 50
    action := "Wait for better setup"
    timeframe := "N/A" }

/-- `SignalGenerator.generate_signal`: the `try` body, with any
exception replaced by the default HOLD signal. -/
def generateSignal (coin : String) (price : CoinPrice) (tech : TechIndicators)
    (ai : Option AIAnalysis) (macroCtx : Option MacroContext) : MultiLayerSignal :=
  match generateSignalAttempt coin price tech ai macroCtx with
  | Except.ok s => s
  | Except.error _ => defaultHoldSignal coin

/-! ## Concrete inputs used by counterexamples and witnesses -/

/-- Indicator bundle whose technical score is 90: oversold RSI and a
positive MACD histogram, trend unknown, bands neutral. -/
def techHigh : TechIndicators :=
  { rsi := 25, macd := 0, macd_signal := 0, macd_histogram := 1,
    bb_upper := 110, bb_middle := 100, bb_lower := 90 }

/-- An AI analysis carrying a truthy `entry_zone_low` but no
`entry_zone_high`: formatting it raises inside the fusion path. -/
def aiBadZone : AIAnalysis :=
  { rating := SignalType.BUY, confidence := 80, timeframe := Timeframe.SWING,
    entry_zone_low := some 100 }

/-- A benign price snapshot. -/
def priceBTC : CoinPrice := { price := 100, change_24h := 0 }

/-- Indicator dictionary A of the additivity counterexample: oversold
RSI plus confirming high volume. -/
def indVolA : IndicatorsDict := { rsi := some 25, volume_ratio := some 2 }

/-- Indicator dictionary B of the additivity counterexample: identical
volume ratio, no other contribution. -/
def indVolB : IndicatorsDict := { volume_ratio := some 2 }

/-! # Theorems -/

/-! ## Shared lemmas on the token bucket -/

lemma refill_tokens_le_capacity (b : TokenBucket) (now : ℚ) :
    (b.refill now).tokens ≤ b.capacity :=
  min_le_left _ _

lemma refill_tokens_nonneg (b : TokenBucket) (now : ℚ)
    (h0 : 0 ≤ b.tokens) (hc : 0 ≤ b.capacity) (hr : 0 ≤ b.refill_rate)
    (hl : b.last_refill ≤ now) : 0 ≤ (b.refill now).tokens := by
  have hm : 0 ≤ (now - b.last_refill) * b.refill_rate :=
    mul_nonneg (by linarith) hr
  exact le_min hc (by linarith)

lemma acquire_params_eq (b : TokenBucket) (u t0 t1 : ℚ) :
    (b.acquire u t0 t1).2.capacity = b.capacity ∧
      (b.acquire u t0 t1).2.refill_rate = b.refill_rate := by
  simp only [TokenBucket.acquire, TokenBucket.refill]
  split <;> exact ⟨rfl, rfl⟩

lemma acquire_one_bounds (b : TokenBucket) (t0 t1 : ℚ)
    (hcap : 1 ≤ b.capacity) (hrate : 0 < b.refill_rate)
    (h0 : 0 ≤ b.tokens) (hlr : b.last_refill ≤ t0)
    (hwake : t0 + (if (b.refill t0).tokens < 1 then b.waitTime 1 t0 else 0) ≤ t1) :
    0 ≤ (b.acquire 1 t0 t1).2.tokens ∧ (b.acquire 1 t0 t1).2.tokens ≤ b.capacity := by
  have hb1cap : (b.refill t0).tokens ≤ b.capacity := refill_tokens_le_capacity b t0
  by_cases h : (1 : ℚ) ≤ (b.refill t0).tokens
  · have hr : (b.acquire 1 t0 t1).2.tokens = (b.refill t0).tokens - 1 := by
      simp only [TokenBucket.acquire, if_pos h]
    rw [hr]
    constructor <;> linarith
  · have hlt : (b.refill t0).tokens < 1 := not_le.mp h
    have hwait : t0 + (1 - (b.refill t0).tokens) / b.refill_rate ≤ t1 := by
      rw [if_pos hlt] at hwake
      simpa [TokenBucket.waitTime] using hwake
    have hmul : 1 - (b.refill t0).tokens ≤ (t1 - t0) * b.refill_rate := by
      have hd : (1 - (b.refill t0).tokens) / b.refill_rate ≤ t1 - t0 := by linarith
      exact (div_le_iff₀ hrate).mp hd
    have hr : (b.acquire 1 t0 t1).2.tokens = ((b.refill t0).refill t1).tokens - 1 := by
      simp only [TokenBucket.acquire, if_neg h]
    have hrr : ((b.refill t0).refill t1).tokens =
        min b.capacity ((b.refill t0).tokens + (t1 - t0) * b.refill_rate) := rfl
    rw [hr, hrr]
    have h1le : (1 : ℚ) ≤ min b.capacity ((b.refill t0).tokens + (t1 - t0) * b.refill_rate) :=
      le_min hcap (by linarith)
    have h2le : min b.capacity ((b.refill t0).tokens + (t1 - t0) * b.refill_rate) ≤ b.capacity :=
      min_le_left _ _
    constructor <;> linarith

lemma runAcquires_bounds (evs : List (ℚ × ℚ)) :
    ∀ b : TokenBucket, 1 ≤ b.capacity → 0 < b.refill_rate → 0 ≤ b.tokens →
      b.tokens ≤ b.capacity → validEvents b evs = true →
      0 ≤ (runAcquires b evs).tokens ∧ (runAcquires b evs).tokens ≤ b.capacity := by
  induction evs with
  | nil => exact fun b _ _ h3 h4 _ => ⟨h3, h4⟩
  | cons ev rest ih =>
    rintro b hcap hrate h0 hle hv
    obtain ⟨t0, t1⟩ := ev
    have hv' : (decide (b.last_refill ≤ t0) &&
        (decide (t0 + (if (b.refill t0).tokens < 1 then b.waitTime 1 t0 else 0) ≤ t1) &&
          validEvents (b.acquire 1 t0 t1).2 rest)) = true := by
      simpa [validEvents, Bool.and_assoc] using hv
    rw [Bool.and_eq_true, Bool.and_eq_true] at hv'
    obtain ⟨hd1, hd2, hrest⟩ := hv'
    have hlr : b.last_refill ≤ t0 := of_decide_eq_true hd1
    have hwake := of_decide_eq_true hd2
    have hstep := acquire_one_bounds b t0 t1 hcap hrate h0 hlr hwake
    have hpar := acquire_params_eq b 1 t0 t1
    have hrun : runAcquires b ((t0, t1) :: rest) = runAcquires (b.acquire 1 t0 t1).2 rest := rfl
    rw [hrun]
    have := ih (b.acquire 1 t0 t1).2 (hpar.1 ▸ hcap) (hpar.2 ▸ hrate) hstep.1
      (hpar.1 ▸ hstep.2) hrest
    exact ⟨this.1, hpar.1 ▸ this.2⟩

/-- C1: for every configured source's token bucket (started full at any
instant), after any timing-valid sequence of sequential 1-unit acquires
the token count satisfies `0 ≤ tokens ≤ capacity`; in particular it is
never negative after an acquire completes. -/
theorem C1_token_bucket_invariant (cap rate : ℚ)
    (hmem : (cap, rate) ∈ sourceBucketParams) (tinit : ℚ) (evs : List (ℚ × ℚ))
    (hv : validEvents (initBucket cap rate tinit) evs = true) :
    0 ≤ (runAcquires (initBucket cap rate tinit) evs).tokens ∧
      (runAcquires (initBucket cap rate tinit) evs).tokens ≤ cap := by
  have hcr : 1 ≤ cap ∧ 0 < rate := by
    simp only [sourceBucketParams, List.mem_cons, List.not_mem_nil, or_false,
      Prod.mk.injEq] at hmem
    rcases hmem with ⟨rfl, rfl⟩ | ⟨rfl, rfl⟩ | ⟨rfl, rfl⟩ | ⟨rfl, rfl⟩ <;> norm_num
  exact runAcquires_bounds evs (initBucket cap rate tinit) hcr.1 hcr.2
    (by simpa [initBucket] using le_trans zero_le_one hcr.1) (le_refl _) hv

/-- Witness for C1: the CoinGecko bucket, one immediate 1-unit acquire. -/
theorem C1_token_bucket_invariant_witness :
    0 ≤ (runAcquires (initBucket 45 0.75 0) [(0, 0)]).tokens ∧
      (runAcquires (initBucket 45 0.75 0) [(0, 0)]).tokens ≤ 45 :=
  C1_token_bucket_invariant 45 0.75 (by norm_num [sourceBucketParams]) 0 [(0, 0)]
    (by norm_num [validEvents, initBucket, TokenBucket.refill, TokenBucket.acquire,
      TokenBucket.waitTime])

/-- C2: a request for more units than the bucket's capacity is neither
dropped nor rejected: the call cannot be served by the fast path, sleeps
once, and returns `True`; its duration `t1 - t0` is at least
`(units - available_tokens) / refill_rate`, where `available_tokens` is
the bucket's (lazily refilled) token count at the call instant. -/
theorem C2_oversized_acquire_succeeds (b : TokenBucket) (units t0 t1 : ℚ)
    (hrate : 0 < b.refill_rate)
    (hover : b.capacity < units)
    (hsleep : t0 + b.waitTime units t0 ≤ t1) :
    (b.acquire units t0 t1).1 = true ∧
      ¬ units ≤ (b.refill t0).tokens ∧
      (units - (b.refill t0).tokens) / b.refill_rate ≤ t1 - t0 := by
  have hlt : (b.refill t0).tokens < units :=
    lt_of_le_of_lt (refill_tokens_le_capacity b t0) hover
  refine ⟨?_, not_le.mpr hlt, ?_⟩
  · simp only [TokenBucket.acquire]
    split <;> rfl
  · have := hsleep
    simp only [TokenBucket.waitTime] at this
    linarith

/-- Witness for C2: the CoinGecko bucket asked for 50 > 45 tokens. -/
theorem C2_oversized_acquire_succeeds_witness :
    ((initBucket 45 0.75 0).acquire 50 0 (20 / 3)).1 = true ∧
      ¬ (50 : ℚ) ≤ ((initBucket 45 0.75 0).refill 0).tokens ∧
      ((50 : ℚ) - ((initBucket 45 0.75 0).refill 0).tokens) / (initBucket 45 0.75 0).refill_rate
        ≤ 20 / 3 - 0 :=
  C2_oversized_acquire_succeeds (initBucket 45 0.75 0) 50 0 (20 / 3)
    (by norm_num [initBucket]) (by norm_num [initBucket])
    (by norm_num [initBucket, TokenBucket.waitTime, TokenBucket.refill])

/-- C10: `RateLimiter.acquire` on a source that is not among the
configured limiters returns `True` at once: no bucket is debited, the
limiter mapping is unchanged, and the elapsed wait is zero. -/
theorem C10_unknown_source_unlimited (source : String) (tinit t0 t1 units : ℚ)
    (h : source ∉ sourceNames) :
    rateLimiterAcquire (initLimiters tinit) source t0 t1 units =
      (true, initLimiters tinit, 0) := by
  have hne : source ≠ "coingecko" ∧ source ≠ "binance" ∧ source ≠ "glassnode" ∧
      source ≠ "cryptoquant" := by
    simp only [sourceNames, List.mem_cons, List.not_mem_nil, or_false] at h
    push_neg at h
    exact h
  have hlk : lookupBucket (initLimiters tinit) source = none := by
    simp only [lookupBucket, initLimiters, List.find?]
    have e1 : ("coingecko" == source) = false := by
      simp [Ne.symm hne.1]
    have e2 : ("binance" == source) = false := by
      simp [Ne.symm hne.2.1]
    have e3 : ("glassnode" == source) = false := by
      simp [Ne.symm hne.2.2.1]
    have e4 : ("cryptoquant" == source) = false := by
      simp [Ne.symm hne.2.2.2]
    simp [e1, e2, e3, e4]
  simp [rateLimiterAcquire, hlk]

/-- Witness for C10: the unconfigured source `"kraken"`. -/
theorem C10_unknown_source_unlimited_witness :
    rateLimiterAcquire (initLimiters 0) "kraken" 3 7 1 = (true, initLimiters 0, 0) :=
  C10_unknown_source_unlimited "kraken" 0 3 7 1 (by decide)

/-! ## Shared lemmas on the cache stores -/

lemma storeFind_insert_self {α : Type} (s : Store α) (k : String) (v : α) (e : ℚ) :
    storeFind (storeInsert s k v e) k = some (v, e) := by
  simp [storeFind, storeInsert, List.find?]

lemma storeFind_erase_self {α : Type} (s : Store α) (k : String) :
    storeFind (storeErase s k) k = none := by
  have hf : List.find? (fun e => e.1 == k) (storeErase s k) = none := by
    rw [List.find?_eq_none]
    intro x hx
    have hne := (List.mem_filter.mp hx).2
    simpa using hne
  simp [storeFind, hf]

lemma cacheGet_use_redis_eq {α : Type} (st : CacheState α) (k : String) (now : ℚ)
    (fault : Bool) : (st.get k now fault).2.use_redis = st.use_redis := by
  unfold CacheState.get
  split
  · split <;> rfl
  · rcases hf : storeFind st.fallback_cache k with _ | ⟨v, exp⟩ <;> simp [hf]
    split <;> rfl

lemma cacheGet_fallback_preserves {α : Type} (st : CacheState α) (k : String) (now : ℚ)
    (fault : Bool) (h : st.use_redis = false) :
    (st.get k now fault).2.use_redis = false ∧
      (st.get k now fault).2.redis_store = st.redis_store := by
  unfold CacheState.get
  rw [h]
  simp only [Bool.false_and, Bool.false_eq_true, if_false]
  rcases hf : storeFind st.fallback_cache k with _ | ⟨v, exp⟩ <;> simp [hf, h]
  split <;> simp [h]

lemma cacheSet_fallback_preserves {α : Type} (st : CacheState α) (k : String) (v : α)
    (ttl now : ℚ) (fault : Bool) (h : st.use_redis = false) :
    (st.set k v ttl now fault).use_redis = false ∧
      (st.set k v ttl now fault).redis_store = st.redis_store := by
  unfold CacheState.set
  rw [h]
  simp [h]

lemma applyOps_fallback_inv {α : Type} (ops : List (CacheOp α)) :
    ∀ st : CacheState α, st.use_redis = false →
      (applyOps st ops).use_redis = false ∧
        (applyOps st ops).redis_store = st.redis_store := by
  induction ops with
  | nil => exact fun st h => ⟨h, rfl⟩
  | cons op rest ih =>
    intro st h
    cases op with
    | get k now fault =>
      have hstep := cacheGet_fallback_preserves st k now fault h
      have := ih (st.get k now fault).2 hstep.1
      exact ⟨this.1, this.2.trans hstep.2⟩
    | set k v ttl now fault =>
      have hstep := cacheSet_fallback_preserves st k v ttl now fault h
      have := ih (st.set k v ttl now fault) hstep.1
      exact ⟨this.1, this.2.trans hstep.2⟩

/-- C3: in every cache mode, a `get` of a key after a `set` with positive
`ttl` returns the stored value strictly before the expiry instant
`ts + ttl` and behaves as a miss from the expiry instant on; in fallback
mode the expired entry is still physically present until the read, which
checks expiry and deletes it. -/
theorem C3_cache_set_get_ttl {α : Type} (st : CacheState α) (k : String) (v : α)
    (ttl ts tg : ℚ) (httl : 0 < ttl) (hts : ts ≤ tg) :
    (tg < ts + ttl → ((st.set k v ttl ts false).get k tg false).1 = some v) ∧
    (ts + ttl ≤ tg → ((st.set k v ttl ts false).get k tg false).1 = none) ∧
    (st.use_redis = false →
      storeFind ((st.set k v ttl ts false)).fallback_cache k = some (v, ts + ttl) ∧
      (ts + ttl ≤ tg →
        storeFind (((st.set k v ttl ts false).get k tg false).2).fallback_cache k = none)) := by
  by_cases h : (st.use_redis && st.redis_conn) = true
  · have hur : st.use_redis = true := by
      rw [Bool.and_eq_true] at h
      exact h.1
    refine ⟨?_, ?_, ?_⟩
    · intro hlt
      simp [CacheState.set, CacheState.get, h, redisGet, redisSetex,
        storeFind_insert_self, hlt]
    · intro hge
      simp [CacheState.set, CacheState.get, h, redisGet, redisSetex,
        storeFind_insert_self, not_lt.mpr hge]
    · intro hfalse
      rw [hfalse] at hur
      exact absurd hur (by simp)
  · refine ⟨?_, ?_, ?_⟩
    · intro hlt
      simp [CacheState.set, CacheState.get, h, storeFind_insert_self, hlt]
    · intro hge
      simp [CacheState.set, CacheState.get, h, storeFind_insert_self, not_lt.mpr hge]
    · intro _
      refine ⟨by simp [CacheState.set, h, storeFind_insert_self], fun hge => ?_⟩
      simp [CacheState.set, CacheState.get, h, storeFind_insert_self, not_lt.mpr hge,
        storeFind_erase_self]

/-- Witness for C3: an integer value cached for 30 seconds in the
primary mode, read back 10 seconds later. -/
theorem C3_cache_set_get_ttl_witness :
    ((10 : ℚ) < 0 + 30 →
      (((⟨true, true, [], []⟩ : CacheState ℤ).set "price:BTC" 7 30 0 false).get
        "price:BTC" 10 false).1 = some 7) ∧
    ((0 : ℚ) + 30 ≤ 10 →
      (((⟨true, true, [], []⟩ : CacheState ℤ).set "price:BTC" 7 30 0 false).get
        "price:BTC" 10 false).1 = none) ∧
    ((⟨true, true, [], []⟩ : CacheState ℤ).use_redis = false →
      storeFind (((⟨true, true, [], []⟩ : CacheState ℤ).set "price:BTC" 7 30 0
          false)).fallback_cache "price:BTC" = some (7, 0 + 30) ∧
      ((0 : ℚ) + 30 ≤ 10 →
        storeFind ((((⟨true, true, [], []⟩ : CacheState ℤ).set "price:BTC" 7 30 0
          false).get "price:BTC" 10 false).2).fallback_cache "price:BTC" = none)) :=
  C3_cache_set_get_ttl (⟨true, true, [], []⟩ : CacheState ℤ) "price:BTC" 7 30 0 10
    (by norm_num) (by norm_num)

/-- C4 as stated is false: a primary-tier operation failure at call time
does not switch the cache to the fallback store.  After a faulting
primary `get`, `use_redis` is still `true` and the next `set` writes to
the primary store, leaving the fallback store empty. -/
theorem C4_counterexample :
    ((((⟨true, true, [], []⟩ : CacheState ℤ).get "price:BTC" 0 true).2).use_redis = true) ∧
    ((((⟨true, true, [], []⟩ : CacheState ℤ).get "price:BTC" 0 true).2.set "price:BTC" 7 30 1
        false).redis_store ≠ []) ∧
    ((((⟨true, true, [], []⟩ : CacheState ℤ).get "price:BTC" 0 true).2.set "price:BTC" 7 30 1
        false).fallback_cache = []) :=
  ⟨rfl, List.cons_ne_nil _ _, rfl⟩

/-- C4 amended: only a connection failure at startup switches the cache
to the fallback store; from then on every operation leaves `use_redis`
false and never touches the primary store, while a call-time primary
fault is caught without flipping the mode (the primary is retried on
later calls). -/
theorem C4_amended_fallback_switch {α : Type} (st : CacheState α) (ops : List (CacheOp α))
    (k : String) (t : ℚ) :
    (st.connect false).use_redis = false ∧
    (applyOps (st.connect false) ops).use_redis = false ∧
    (applyOps (st.connect false) ops).redis_store = st.redis_store ∧
    (st.get k t true).2.use_redis = st.use_redis := by
  have hc : (st.connect false).use_redis = false := by
    simp [CacheState.connect]
  have hinv := applyOps_fallback_inv ops (st.connect false) hc
  refine ⟨hc, hinv.1, hinv.2.trans ?_, cacheGet_use_redis_eq st k t true⟩
  simp [CacheState.connect]

/-! ## Technical score and RSI classification -/

/-- C6: `calculate_technical_score` stays in `[0, 100]` for every
indicator bundle, and an entirely unavailable bundle yields exactly the
neutral baseline 50. -/
theorem C6_technical_score_range_and_neutral :
    (∀ ind : IndicatorsDict,
      0 ≤ calculate_technical_score ind ∧ calculate_technical_score ind ≤ 100) ∧
    calculate_technical_score {} = 50 := by
  refine ⟨fun ind => ?_, rfl⟩
  unfold calculate_technical_score clamp0100
  constructor
  · exact le_max_left _ _
  · exact max_le (by norm_num) (min_le_left _ _)

/-- C9 fails as stated: the volume-ratio contribution is not an additive
term independent of the running score.  Bundles `indVolA` and `indVolB`
share the volume ratio 2, yet no single additive volume delta explains
both final scores (85 and 35). -/
theorem C9_counterexample :
    ¬ ∃ volDelta : ℤ,
      calculate_technical_score indVolA =
        clamp0100 (50 + rsiDelta indVolA.rsi + macdDelta indVolA.macd_signal +
          trendDelta indVolA.trend + bbDelta indVolA.bb_signal + volDelta) ∧
      calculate_technical_score indVolB =
        clamp0100 (50 + rsiDelta indVolB.rsi + macdDelta indVolB.macd_signal +
          trendDelta indVolB.trend + bbDelta indVolB.bb_signal + volDelta) := by
  rintro ⟨d, h1, h2⟩
  have e1 : calculate_technical_score indVolA = 85 := by
    simp [calculate_technical_score, indVolA, rsiDelta, macdDelta, trendDelta,
      bbDelta, volumeStep, clamp0100, min_def, max_def]
    norm_num
  have e2 : calculate_technical_score indVolB = 35 := by
    simp [calculate_technical_score, indVolB, rsiDelta, macdDelta, trendDelta,
      bbDelta, volumeStep, clamp0100, min_def, max_def]
    norm_num
  have s1 : 50 + rsiDelta indVolA.rsi + macdDelta indVolA.macd_signal +
      trendDelta indVolA.trend + bbDelta indVolA.bb_signal = 70 := by
    simp [indVolA, rsiDelta, macdDelta, trendDelta, bbDelta]
    norm_num
  have s2 : 50 + rsiDelta indVolB.rsi + macdDelta indVolB.macd_signal +
      trendDelta indVolB.trend + bbDelta indVolB.bb_signal = 50 := by
    simp [indVolB, rsiDelta, macdDelta, trendDelta, bbDelta]
  rw [e1, s1] at h1
  rw [e2, s2] at h2
  simp only [clamp0100] at h1 h2
  omega

/-- C9 amended: the technical score is 50 plus the four additive
rsi/macd/trend/band deltas, then the volume-ratio step — whose added
amount is `±15`/`∓5` depending on the running score's position relative
to 50 at that point, hence not score-independent — and one final clamp
to `[0, 100]`. -/
theorem C9_amended_score_shape (ind : IndicatorsDict) (base : ℤ) (v : ℚ) :
    calculate_technical_score ind =
      clamp0100 (volumeStep (50 + rsiDelta ind.rsi + macdDelta ind.macd_signal +
        trendDelta ind.trend + bbDelta ind.bb_signal) ind.volume_ratio) ∧
    volumeStep base (some v) - base =
      (if v = 0 then 0
       else if (1.5 : ℚ) < v then (if 50 < base then 15 else -15)
       else if v < (0.5 : ℚ) then (if 50 < base then -5 else 5)
       else 0) := by
  refine ⟨rfl, ?_⟩
  simp only [volumeStep]
  split_ifs <;> omega

/-- C8 fails as stated at the boundaries: the code classifies an RSI of
exactly 60 as neutral (the claim says bullish) and exactly 70 as bullish
(the claim says overbought). -/
theorem C8_counterexample :
    rsiSignalOf (some 60) = "NEUTRAL" ∧ rsiSignalClaim 60 = "BULLISH" ∧
    rsiSignalOf (some 70) = "BULLISH" ∧ rsiSignalClaim 70 = "OVERBOUGHT" := by
  refine ⟨?_, ?_, ?_, ?_⟩ <;> norm_num [rsiSignalOf, rsiSignalClaim]

/-- C8 amended: for a truthy RSI value the classification is: below 30
oversold; above 70 overbought; otherwise below 40 bearish, above 60
bullish, else neutral.  The boundaries land as: 30 bearish, 40 neutral,
60 neutral, 70 bullish. -/
theorem C8_amended_rsi_thresholds (r : ℚ) (hr : r ≠ 0) :
    (rsiSignalOf (some r) = "OVERSOLD" ↔ r < 30) ∧
    (rsiSignalOf (some r) = "BEARISH" ↔ 30 ≤ r ∧ r < 40) ∧
    (rsiSignalOf (some r) = "NEUTRAL" ↔ 40 ≤ r ∧ r ≤ 60) ∧
    (rsiSignalOf (some r) = "BULLISH" ↔ 60 < r ∧ r ≤ 70) ∧
    (rsiSignalOf (some r) = "OVERBOUGHT" ↔ 70 < r) := by
  simp only [rsiSignalOf]
  rw [if_neg hr]
  split_ifs with h1 h2 h3 h4 <;>
    refine ⟨?_, ?_, ?_, ?_, ?_⟩ <;> constructor <;> intro hh <;>
      first
        | rfl
        | linarith
        | (exact absurd hh (by decide))
        | (constructor <;> linarith)

/-- Witness for C8's amended theorem at the truthy RSI value 50. -/
theorem C8_amended_rsi_thresholds_witness :
    (rsiSignalOf (some 50) = "OVERSOLD" ↔ (50 : ℚ) < 30) ∧
    (rsiSignalOf (some 50) = "BEARISH" ↔ (30 : ℚ) ≤ 50 ∧ (50 : ℚ) < 40) ∧
    (rsiSignalOf (some 50) = "NEUTRAL" ↔ (40 : ℚ) ≤ 50 ∧ (50 : ℚ) ≤ 60) ∧
    (rsiSignalOf (some 50) = "BULLISH" ↔ (60 : ℚ) < 50 ∧ (50 : ℚ) ≤ 70) ∧
    (rsiSignalOf (some 50) = "OVERBOUGHT" ↔ (70 : ℚ) < 50) :=
  C8_amended_rsi_thresholds 50 (by norm_num)

/-! ## Overall score weighting -/

lemma pyInt_intCast (n : ℤ) : pyInt (n : ℚ) = n := by
  simp [pyInt, Rat.num_intCast, Rat.den_intCast]

/-- C5: `_calculate_overall_score` is the integer truncation of the
weighted average of the layer scores present, with exactly the claimed
weight tables: 0.4/0.3/0.3 (all three), 0.6/0.4 (exactly two), 1.0
(technical only); in particular technical 80 with macro 60 gives 72 and
technical 80 alone gives 80. -/
theorem C5_overall_score_weights (t m s : ℤ) :
    overallScore t (some m) (some s) = pyInt (((4 * t + 3 * m + 3 * s : ℤ) : ℚ) / 10) ∧
    overallScore t (some m) none = pyInt (((3 * t + 2 * m : ℤ) : ℚ) / 5) ∧
    overallScore t none (some s) = pyInt (((3 * t + 2 * s : ℤ) : ℚ) / 5) ∧
    overallScore t none none = t ∧
    overallScore 80 (some 60) none = 72 ∧
    overallScore 80 none none = 80 := by
  refine ⟨?_, ?_, ?_, ?_, ?_, ?_⟩
  · show pyInt ((t : ℚ) * 0.4 + (m : ℚ) * 0.3 + (s : ℚ) * 0.3) = _
    congr 1
    push_cast
    ring_nf
  · show pyInt ((t : ℚ) * 0.6 + (m : ℚ) * 0.4) = _
    congr 1
    push_cast
    ring_nf
  · show pyInt ((t : ℚ) * 0.6 + (s : ℚ) * 0.4) = _
    congr 1
    push_cast
    ring_nf
  · exact pyInt_intCast t
  · show pyInt ((80 : ℚ) * 0.6 + (60 : ℚ) * 0.4) = 72
    have h : ((80 : ℚ) * 0.6 + (60 : ℚ) * 0.4) = ((72 : ℤ) : ℚ) := by norm_num
    rw [h, pyInt_intCast]
  · show pyInt (((80 : ℤ) : ℚ)) = 80
    rw [pyInt_intCast]

/-! ## Fusion failure semantics -/

lemma determineTradeLevels_badZone (st : SignalType) (price : CoinPrice)
    (tech : TechIndicators) (a : AIAnalysis) (hlow : truthyQ a.entry_zone_low = true)
    (hhigh : a.entry_zone_high = none) :
    determineTradeLevels st price tech (some a) = Except.error "TypeError" := by
  simp [determineTradeLevels, hlow, hhigh]

lemma generateSignalAttempt_error (coin : String) (price : CoinPrice)
    (tech : TechIndicators) (a : AIAnalysis) (macroCtx : Option MacroContext)
    (hlow : truthyQ a.entry_zone_low = true) (hhigh : a.entry_zone_high = none) :
    generateSignalAttempt coin price tech (some a) macroCtx =
      Except.error "TypeError" := by
  simp only [generateSignalAttempt]
  rw [determineTradeLevels_badZone _ _ _ _ hlow hhigh]

lemma aiBadZone_truthy : truthyQ aiBadZone.entry_zone_low = true := by
  simp only [aiBadZone, truthyQ]
  rw [decide_eq_true_eq]
  norm_num

lemma attempt_badZone :
    generateSignalAttempt "BTC" priceBTC techHigh (some aiBadZone) none =
      Except.error "TypeError" :=
  generateSignalAttempt_error "BTC" priceBTC techHigh aiBadZone none
    aiBadZone_truthy rfl

/-- C7 fails as stated: at an input whose fusion raises while the
technical score 90 was available, the fallback signal carries the
hard-coded neutral 50, not the available technical score. -/
theorem C7_counterexample :
    (generateSignal "BTC" priceBTC techHigh (some aiBadZone) none).technical_score = 50 ∧
    calcTechnicalScoreSG techHigh = 90 ∧
    (generateSignalAttempt "BTC" priceBTC techHigh (some aiBadZone) none).toOption = none := by
  refine ⟨?_, by decide, ?_⟩
  · unfold generateSignal
    rw [attempt_badZone]
    rfl
  · rw [attempt_badZone]
    rfl

/-- C7 amended: whenever the fusion body raises, `generate_signal`
returns the safe default: hold class, overall score 50, zero confidence,
technical score fixed at the neutral 50 (the computed technical score is
not carried through), and no trade levels. -/
theorem C7_amended_fault_default (coin : String) (price : CoinPrice)
    (tech : TechIndicators) (ai : Option AIAnalysis) (macroCtx : Option MacroContext)
    (h : (generateSignalAttempt coin price tech ai macroCtx).toOption = none) :
    generateSignal coin price tech ai macroCtx = defaultHoldSignal coin ∧
    (defaultHoldSignal coin).signal = SignalType.HOLD ∧
    (defaultHoldSignal coin).overall_score = 50 ∧
    (defaultHoldSignal coin).confidence = 0 ∧
    (defaultHoldSignal coin).technical_score = 50 ∧
    (defaultHoldSignal coin).entry_zone = none ∧
    (defaultHoldSignal coin).targets = [] ∧
    (defaultHoldSignal coin).stop_loss = none := by
  refine ⟨?_, rfl, rfl, rfl, rfl, rfl, rfl, rfl⟩
  unfold generateSignal
  rcases hatt : generateSignalAttempt coin price tech ai macroCtx with e | s
  · rfl
  · rw [hatt] at h
    exact absurd h (by simp [Except.toOption])

/-- Witness for C7's amended theorem at the concrete faulting input. -/
theorem C7_amended_fault_default_witness :
    generateSignal "BTC" priceBTC techHigh (some aiBadZone) none =
      defaultHoldSignal "BTC" ∧
    (defaultHoldSignal "BTC").signal = SignalType.HOLD ∧
    (defaultHoldSignal "BTC").overall_score = 50 ∧
    (defaultHoldSignal "BTC").confidence = 0 ∧
    (defaultHoldSignal "BTC").technical_score = 50 ∧
    (defaultHoldSignal "BTC").entry_zone = none ∧
    (defaultHoldSignal "BTC").targets = [] ∧
    (defaultHoldSignal "BTC").stop_loss = none :=
  C7_amended_fault_default "BTC" priceBTC techHigh (some aiBadZone) none
    (by rw [attempt_badZone]; rfl)
